import Mathlib

/-!
Verification of the agentic support-copilot pipeline core.

The development below is a shallow embedding of the five-stage
request-processing pipeline (classification, retrieval, drafting,
validation, logging) and its orchestrator, translated from
src/apps/api/src/agents/{classifier,retriever,writer,guard,logger,workflow}.py
and src/apps/api/src/services/knowledge_base.py.

Modelling conventions:
- JSON values parsed from collaborator responses are modelled by the
  inductive type JsonVal.  Python json.loads is modelled by the field
  loads of the Collaborators structure (none = json.JSONDecodeError,
  some v = the parsed value); the theorems quantify over it, and the
  Python parser is one instance.
- The completion collaborator llm.chat is the field chat
  (Except.error e = the call raises an exception whose str() is e).
- The supabase embed-plus-rpc backend inside KnowledgeBase.search_similar
  is the field kb_search; the demo-mode flag chosen in KnowledgeBase.__init__
  is the field demo_mode.
- asyncio.wait_for timeouts and LangGraph RetryPolicy exhaustion in
  AgentWorkflow._wrap_agent / _build_workflow are modelled by the oracle
  step_outcome: some e means the wrapped step raises e after exhausting
  its retries, none means the step body runs.  The stage bodies are pure
  in the model, so retried attempts are value-identical and collapse to
  a single logical execution.
- Wall-clock quantities (datetime.now, time.time) are abstracted: the
  elapsed time measured by the Logger stage is the field elapsed_ms, and
  the duration_ms / timestamp fields of trace records, which no verified
  property mentions, are omitted from StepRecord, as are the input echo
  payloads.  The one control-flow effect of an input payload - the
  len(state.get("answer", "")) call in GuardAgent, which raises when the
  answer field still holds None - is modelled explicitly inside
  GuardAgent.validate_response.
- Prompt wording is out of scope (spec section 1 non-goals); the message
  builders below keep the structure of the Python f-strings but condense
  the literal instruction text, which no verified property inspects.
-/

/-- Model of a JSON value as produced by json.loads. -/
inductive JsonVal where
  | null
  | bool (b : Bool)
  | num (q : Rat)
  | str (s : String)
  | arr (elems : List JsonVal)
  | obj (fields : List (String × JsonVal))

/-- First binding of a key in a parsed JSON object; json.loads produces
dictionaries with unique keys, so first-match lookup models dict access. -/
def lookupKey : List (String × JsonVal) → String → Option JsonVal
  | [], _ => none
  | (k, v) :: rest, key => if k = key then some v else lookupKey rest key

/-- One chat message, as in the messages lists passed to llm.chat. -/
structure ChatMessage where
  role : String
  content : String

/-- Knowledge source retrieved by RAG (models.state.Source). -/
structure Source where
  id : String
  title : String
  content : String
  similarity_score : Rat

/-- Performance metrics (models.state.Metrics). -/
structure Metrics where
  latency_ms : Nat
  token_usage : Nat

/-- One trace entry (models.state.AgentStep).  The output field carries the
structured output dictionary; error outputs are obj [("error", str e)].
The input, duration_ms and timestamp fields are abstracted away (see the
header comment). -/
structure StepRecord where
  agent_name : String
  step_name : String
  output : JsonVal

/-- Shared state of the agent pipeline (models.state.AgentState).
The classification and validation fields hold whatever JSON value the
stage adopted (the Python TypedDict annotations are not enforced at
runtime), hence Option JsonVal; answer is only ever None or a Python
string, hence Option String.  start_time is abstracted into the
elapsed_ms field of Collaborators. -/
structure AgentState where
  request_text : String
  intent : Option JsonVal
  sentiment : Option JsonVal
  urgency : Option JsonVal
  sources : List Source
  answer : Option String
  is_safe : Option JsonVal
  validation_reasons : Option JsonVal
  trace : List StepRecord
  metrics : Metrics

/-- One row returned by the knowledge-store backend: a loosely shaped
dictionary in which any key may be absent. -/
structure RawRow where
  id : Option String
  title : Option String
  content : Option String
  similarity : Option Rat

/-- Names of the five workflow nodes added in AgentWorkflow._build_workflow. -/
inductive WorkflowNode where
  | classify
  | retrieve
  | write
  | validate
  | log

/-- Behaviour of the external collaborators and of the execution harness,
over which every theorem quantifies.  See the header comment for the
correspondence with the Python code. -/
structure Collaborators where
  chat : List ChatMessage → Bool → Except String String
  loads : String → Option JsonVal
  kb_search : String → Nat → Rat → Except String (List RawRow)
  demo_mode : Bool
  step_outcome : WorkflowNode → Option String
  elapsed_ms : Nat

/-- Message of the TypeError raised by len(None); the exact Python wording
is immaterial, only the control flow it triggers matters. -/
def lenNoneError : String := "TypeError: object of type NoneType has no len()"

/-- Message of the AttributeError raised when .get is called on a parsed
JSON value that is not a dictionary. -/
def attributeGetError : String := "AttributeError: object has no attribute get"

/-- Message of the KeyError raised when a knowledge-store row lacks one of
the keys id, title, content. -/
def keyErrorMissingField : String := "KeyError: missing result field"

/-- Rendering used where Python interpolates a value into an f-string;
condensed, since no verified property inspects prompt text. -/
def pyStrOfJson : JsonVal → String
  | .null => "None"
  | .bool b => if b then "True" else "False"
  | .num q => toString q.num
  | .str s => s
  | .arr _ => "[list]"
  | .obj _ => "[dict]"

/-- Python str() of an optional state field (None renders as None). -/
def pyStrOpt : Option JsonVal → String
  | none => "None"
  | some v => pyStrOfJson v

namespace ClassifierAgent

/-- Condensed system prompt of ClassifierAgent.classify. -/
def classifierSystemPrompt : String :=
  "You are a support request classifier. Classify the message into intent, sentiment and urgency and return a JSON object with these three fields."

/-- Messages passed to llm.chat by ClassifierAgent.classify (fast model). -/
def classify_messages (state : AgentState) : List ChatMessage :=
  [{ role := "system", content := classifierSystemPrompt },
   { role := "user", content := "Please classify this support request:\n\n" ++ state.request_text }]

/-- Fallback classification dictionary adopted when JSON parsing fails. -/
def fallback_classification : JsonVal :=
  .obj [("intent", .str "general_question"),
        ("sentiment", .str "neutral"),
        ("urgency", .str "medium")]

/-- Except-branch of ClassifierAgent.classify: append an error step and
set the fallback values. -/
def classify_error_path (state : AgentState) (e : String) : AgentState :=
  { state with
      trace := state.trace ++
        [{ agent_name := "ClassifierAgent", step_name := "classify_request",
           output := .obj [("error", .str e)] }],
      intent := some (.str "general_question"),
      sentiment := some (.str "neutral"),
      urgency := some (.str "medium") }

/-- ClassifierAgent.classify.  The chat call may raise; the response is
parsed with json.loads, falling back to fallback_classification on a
JSONDecodeError; classification.get on a non-dictionary value raises an
AttributeError that the outer except absorbs into the error path. -/
def classify (env : Collaborators) (state : AgentState) : AgentState :=
  match env.chat (classify_messages state) true with
  | .error e => classify_error_path state e
  | .ok response =>
    match (env.loads response).getD fallback_classification with
    | .obj fs =>
      { state with
          intent := some ((lookupKey fs "intent").getD (.str "general_question")),
          sentiment := some ((lookupKey fs "sentiment").getD (.str "neutral")),
          urgency := some ((lookupKey fs "urgency").getD (.str "medium")),
          trace := state.trace ++
            [{ agent_name := "ClassifierAgent", step_name := "classify_request",
               output := .obj fs }] }
    | _ => classify_error_path state attributeGetError

end ClassifierAgent

namespace KnowledgeBase

/-- Demo-mode rows returned by KnowledgeBase.search_similar (contents
condensed; no verified property inspects them). -/
def demo_rows : List RawRow :=
  [{ id := some "demo-1", title := some "Password Reset Guide",
     content := some "To reset your password, use the Forgot Password link on the login page and follow the emailed reset link.",
     similarity := some (0.85 : Rat) },
   { id := some "demo-2", title := some "Billing and Subscription",
     content := some "Plans are billed monthly or annually and can be changed from account settings. Refunds are available within 30 days for monthly plans and 14 days for annual plans.",
     similarity := some (0.75 : Rat) }]

/-- KnowledgeBase.search_similar.  In demo mode it returns the fixed demo
rows; otherwise it runs the embed-plus-rpc backend and, crucially, catches
every backend failure itself, printing and returning an empty list: this
method never raises. -/
def search_similar (env : Collaborators) (query : String) (limit : Nat) (threshold : Rat) : List RawRow :=
  if env.demo_mode then demo_rows
  else
    match env.kb_search query limit threshold with
    | .ok rows => rows
    | .error _ => []

end KnowledgeBase

namespace RetrieverAgent

/-- Conversion of one backend row into a Source: direct indexing of id,
title and content (KeyError when absent), similarity defaulted to 0.0. -/
def row_to_source (row : RawRow) : Except String Source :=
  match row.id, row.title, row.content with
  | some i, some t, some c =>
      .ok { id := i, title := t, content := c,
            similarity_score := row.similarity.getD 0 }
  | _, _, _ => .error keyErrorMissingField

/-- Conversion loop over the backend rows; the first missing key raises. -/
def rows_to_sources : List RawRow → Except String (List Source)
  | [] => .ok []
  | row :: rest =>
    match row_to_source row with
    | .error e => .error e
    | .ok s =>
      match rows_to_sources rest with
      | .error e => .error e
      | .ok ss => .ok (s :: ss)

/-- Success output dictionary of the retrieval step. -/
def retrieve_output (sources : List Source) : JsonVal :=
  .obj [("sources_found", .num (sources.length : Rat)),
        ("sources", .arr (sources.map fun s =>
          .obj [("id", .str s.id), ("title", .str s.title),
                ("score", .num s.similarity_score)]))]

/-- RetrieverAgent.retrieve: search with (query, limit 5, threshold 0.7),
map rows to sources; on any raised failure set sources to the empty list
and append an error step instead. -/
def retrieve (env : Collaborators) (state : AgentState) : AgentState :=
  match rows_to_sources (KnowledgeBase.search_similar env state.request_text 5 (7 / 10 : Rat)) with
  | .ok sources =>
      { state with
          sources := sources,
          trace := state.trace ++
            [{ agent_name := "RetrieverAgent", step_name := "retrieve_knowledge",
               output := retrieve_output sources }] }
  | .error e =>
      { state with
          sources := [],
          trace := state.trace ++
            [{ agent_name := "RetrieverAgent", step_name := "retrieve_knowledge",
               output := .obj [("error", .str e)] }] }

end RetrieverAgent

namespace WriterAgent

/-- Condensed system prompt of WriterAgent.write_response. -/
def writerSystemPrompt : String :=
  "You are a helpful customer support agent. Write a professional, empathetic response using the provided knowledge sources."

/-- Sources section of the writer prompt: a listing, or an explicit notice
when no sources were found. -/
def sources_text (sources : List Source) : String :=
  if sources.isEmpty then
    "\n\nNo specific knowledge sources were found for this request."
  else
    "\n\nKnowledge Sources:\n" ++
      String.join (sources.map fun s => "\n" ++ s.title ++ "\n" ++ s.content ++ "\n")

/-- User prompt of the writer; None-valued classification fields render as
the string None (the unknown default of state.get is dead because
create_initial_state populates every key). -/
def writer_user_prompt (state : AgentState) : String :=
  "Customer Request:\n" ++ state.request_text ++
  "\n\nClassification:\n- Intent: " ++ pyStrOpt state.intent ++
  "\n- Sentiment: " ++ pyStrOpt state.sentiment ++
  "\n- Urgency: " ++ pyStrOpt state.urgency ++
  "\n\n" ++ sources_text state.sources ++
  "\n\nPlease write a helpful response:"

/-- Messages passed to llm.chat by the writer (default model). -/
def write_messages (state : AgentState) : List ChatMessage :=
  [{ role := "system", content := writerSystemPrompt },
   { role := "user", content := writer_user_prompt state }]

/-- Fixed fallback answer set when the writer chat call raises. -/
def apology_text : String :=
  "I apologize, but I\x27m unable to generate a response at this moment. Please try again or contact our support team directly."

/-- Preview stored in the success step: the first 200 characters with an
ellipsis when the response is longer than 200 characters. -/
def response_preview (response : String) : String :=
  if response.length > 200 then response.take 200 ++ "..." else response

/-- WriterAgent.write_response. -/
def write_response (env : Collaborators) (state : AgentState) : AgentState :=
  match env.chat (write_messages state) false with
  | .ok response =>
      { state with
          answer := some response,
          trace := state.trace ++
            [{ agent_name := "WriterAgent", step_name := "generate_response",
               output := .obj [("response_length", .num (response.length : Rat)),
                               ("response_preview", .str (response_preview response))] }] }
  | .error e =>
      { state with
          answer := some apology_text,
          trace := state.trace ++
            [{ agent_name := "WriterAgent", step_name := "generate_response",
               output := .obj [("error", .str e)] }] }

end WriterAgent

namespace GuardAgent

/-- Condensed system prompt of GuardAgent.validate_response. -/
def guardSystemPrompt : String :=
  "You are a safety and compliance validator for customer support responses. Return a JSON object with is_safe, issues and confidence."

/-- Condensed stand-in for json.dumps over the source list in the guard
user prompt. -/
def dumps_sources (sources : List Source) : String :=
  String.join (sources.map fun s => s.title ++ ": " ++ s.content ++ "\n")

/-- User prompt of the guard; a None answer renders as the string None. -/
def validate_user_prompt (state : AgentState) : String :=
  "Original Request:\n" ++ state.request_text ++
  "\n\nGenerated Response:\n" ++
  (match state.answer with
   | none => "None"
   | some a => a) ++
  "\n\nAvailable Knowledge Sources:\n" ++ dumps_sources state.sources ++
  "\n\nPlease validate this response:"

/-- Messages passed to llm.chat by the guard (default model). -/
def validate_messages (state : AgentState) : List ChatMessage :=
  [{ role := "system", content := guardSystemPrompt },
   { role := "user", content := validate_user_prompt state }]

/-- Permissive fallback dictionary adopted when the validation response is
not parseable as JSON. -/
def permissive_fallback : JsonVal :=
  .obj [("is_safe", .bool true),
        ("issues", .arr [.str "Unable to parse validation response"]),
        ("confidence", .num (1 / 2 : Rat))]

/-- Conservative issue list set when the validation chat call raises. -/
def system_error_reasons : JsonVal :=
  .arr [.str "Validation failed due to system error"]

/-- Except-branch of GuardAgent.validate_response: append an error step and
set the conservative fallback values. -/
def validate_error_path (state : AgentState) (e : String) : AgentState :=
  { state with
      is_safe := some (.bool false),
      validation_reasons := some system_error_reasons,
      trace := state.trace ++
        [{ agent_name := "GuardAgent", step_name := "validate_response",
           output := .obj [("error", .str e)] }] }

/-- GuardAgent.validate_response.  Building the step record evaluates
len(state.get("answer", "")): when the answer field still holds None this
raises a TypeError, and the except handler, which builds the same input
payload, raises the TypeError again, so the exception escapes the stage
(Except.error).  With an answer present: a raised chat call takes the
conservative error path; an unparseable response adopts the permissive
fallback dictionary; validation.get on a parsed non-dictionary value
raises an AttributeError absorbed into the conservative error path. -/
def validate_response (env : Collaborators) (state : AgentState) : Except String AgentState :=
  match env.chat (validate_messages state) false with
  | .error e =>
    match state.answer with
    | none => .error lenNoneError
    | some _ => .ok (validate_error_path state e)
  | .ok response =>
    match state.answer with
    | none => .error lenNoneError
    | some _ =>
      match (env.loads response).getD permissive_fallback with
      | .obj fs =>
          .ok { state with
                  is_safe := some ((lookupKey fs "is_safe").getD (.bool false)),
                  validation_reasons := some ((lookupKey fs "issues").getD (.arr [])),
                  trace := state.trace ++
                    [{ agent_name := "GuardAgent", step_name := "validate_response",
                       output := .obj fs }] }
      | _ => .ok (validate_error_path state attributeGetError)

end GuardAgent

namespace LoggerAgent

/-- Sum of the content lengths of the retrieved sources. -/
def sum_content_lengths : List Source → Nat
  | [] => 0
  | s :: rest => s.content.length + sum_content_lengths rest

/-- LoggerAgent._estimate_token_usage: 50 base tokens per trace step plus
one token per four characters of request, answer and source contents,
floored at 100.  len(state.get("answer", "")) raises a TypeError when the
answer field still holds None (the key is always present). -/
def estimate_token_usage (state : AgentState) : Except String Nat :=
  match state.answer with
  | none => .error lenNoneError
  | some answer =>
      .ok (max (state.trace.length * 50 + state.request_text.length / 4 +
                answer.length / 4 + sum_content_lengths state.sources / 4) 100)

/-- Python truthiness of a JSON value. -/
def json_truthy : JsonVal → Bool
  | .null => false
  | .bool b => b
  | .num q => if q = 0 then false else true
  | .str s => if s = "" then false else true
  | .arr elems => if elems.isEmpty then false else true
  | .obj fields => if fields.isEmpty then false else true

/-- Truthiness of an optional state field (None is falsy). -/
def opt_truthy (v : Option JsonVal) : Bool :=
  json_truthy (v.getD .null)

/-- Truthiness of the answer field (None and the empty string are falsy). -/
def answer_truthy : Option String → Bool
  | none => false
  | some a => if a = "" then false else true

/-- LoggerAgent._generate_evaluation, computed on the state before the
final step record is appended. -/
def generate_evaluation (state : AgentState) : JsonVal :=
  .obj [("success", .bool (answer_truthy state.answer && opt_truthy state.is_safe)),
        ("agents_executed", .num (state.trace.length : Rat)),
        ("sources_found", .num (state.sources.length : Rat)),
        ("classification_completed", .bool (opt_truthy state.intent)),
        ("retrieval_completed", .bool true),
        ("response_generated", .bool (answer_truthy state.answer)),
        ("validation_passed", (state.is_safe).getD .null),
        ("issues", if opt_truthy state.is_safe then .arr []
                   else (state.validation_reasons).getD .null)]

/-- LoggerAgent.log_and_evaluate.  On the normal path the final metrics are
the measured latency and the token estimate; when the estimate raises
(answer still None), the except handler appends an error step and sets the
minimal metrics with token_usage zero. -/
def log_and_evaluate (env : Collaborators) (state : AgentState) : AgentState :=
  match estimate_token_usage state with
  | .error e =>
      { state with
          trace := state.trace ++
            [{ agent_name := "LoggerAgent", step_name := "final_evaluation",
               output := .obj [("error", .str e)] }],
          metrics := { latency_ms := env.elapsed_ms, token_usage := 0 } }
  | .ok estimated_tokens =>
      { state with
          metrics := { latency_ms := env.elapsed_ms, token_usage := estimated_tokens },
          trace := state.trace ++
            [{ agent_name := "LoggerAgent", step_name := "final_evaluation",
               output := .obj [("final_metrics",
                                 .obj [("latency_ms", .num (env.elapsed_ms : Rat)),
                                       ("token_usage", .num (estimated_tokens : Rat))]),
                               ("evaluation", generate_evaluation state)] }] }

end LoggerAgent

namespace AgentWorkflow

/-- One wrapped workflow node: the step harness (timeout plus bounded
retry) either lets the stage body run or raises terminally. -/
def run_node (env : Collaborators) (node : WorkflowNode) (state : AgentState) : Except String AgentState :=
  match env.step_outcome node with
  | some e => .error e
  | none =>
    match node with
    | .classify => .ok (ClassifierAgent.classify env state)
    | .retrieve => .ok (RetrieverAgent.retrieve env state)
    | .write => .ok (WriterAgent.write_response env state)
    | .validate => GuardAgent.validate_response env state
    | .log => .ok (LoggerAgent.log_and_evaluate env state)

/-- The compiled workflow: classify, retrieve, write, validate, log in
fixed sequence; the first escaping exception aborts the run. -/
def ainvoke (env : Collaborators) (state0 : AgentState) : Except String AgentState :=
  match run_node env .classify state0 with
  | .error e => .error e
  | .ok s1 =>
    match run_node env .retrieve s1 with
    | .error e => .error e
    | .ok s2 =>
      match run_node env .write s2 with
      | .error e => .error e
      | .ok s3 =>
        match run_node env .validate s3 with
        | .error e => .error e
        | .ok s4 => run_node env .log s4

/-- AgentWorkflow.create_initial_state. -/
def create_initial_state (request_text : String) : AgentState :=
  { request_text := request_text,
    intent := none, sentiment := none, urgency := none,
    sources := [], answer := none,
    is_safe := none, validation_reasons := none,
    trace := [], metrics := { latency_ms := 0, token_usage := 0 } }

/-- Result dictionary returned by AgentWorkflow.process_request.  The
answer field is optional because the success projection reads the answer
key of the final state, which Python returns even when it holds None (the
literal No-response default of dict.get is dead: the key is always
present). -/
structure ProcessResult where
  answer : Option String
  sources : List Source
  trace : List StepRecord
  metrics : Metrics

/-- The synthesized error result of the except branch of process_request.
The request text only feeds the input echo of the single trace record,
which the model abstracts away. -/
def workflow_error_result (_request_text : String) (e : String) : ProcessResult :=
  { answer := some ("An error occurred while processing your request: " ++ e),
    sources := [],
    trace := [{ agent_name := "Workflow", step_name := "error",
                output := .obj [("error", .str e)] }],
    metrics := { latency_ms := 0, token_usage := 0 } }

/-- AgentWorkflow.process_request: run the compiled workflow and project
the final state, converting any escaping exception into the synthesized
error result. -/
def process_request (env : Collaborators) (request_text : String) : ProcessResult :=
  match ainvoke env (create_initial_state request_text) with
  | .ok final_state =>
      { answer := final_state.answer, sources := final_state.sources,
        trace := final_state.trace, metrics := final_state.metrics }
  | .error e => workflow_error_result request_text e

end AgentWorkflow

/-!
Stage-level facts shared by the claim theorems below.
-/

/-- Intent values defined by the classifier taxonomy (spec section 3). -/
def definedIntents : List String :=
  ["technical_issue", "billing_inquiry", "general_question",
   "feature_request", "complaint", "account_issue"]

/-- Sentiment values defined by the classifier taxonomy. -/
def definedSentiments : List String := ["positive", "neutral", "negative"]

/-- Urgency values defined by the classifier taxonomy. -/
def definedUrgencies : List String := ["high", "medium", "low"]

/-- The classification stage appends exactly one record named
ClassifierAgent, never touches the answer, sources or request text, and
always populates the three classification fields. -/
theorem classify_facts (env : Collaborators) (state : AgentState) :
    ∃ rec : StepRecord,
      (ClassifierAgent.classify env state).trace = state.trace ++ [rec] ∧
      rec.agent_name = "ClassifierAgent" ∧
      (ClassifierAgent.classify env state).answer = state.answer ∧
      (ClassifierAgent.classify env state).request_text = state.request_text ∧
      (∃ i, (ClassifierAgent.classify env state).intent = some i) ∧
      (∃ s, (ClassifierAgent.classify env state).sentiment = some s) ∧
      (∃ u, (ClassifierAgent.classify env state).urgency = some u) := by
  unfold ClassifierAgent.classify
  split
  · exact ⟨_, rfl, rfl, rfl, rfl, ⟨_, rfl⟩, ⟨_, rfl⟩, ⟨_, rfl⟩⟩
  · split
    · exact ⟨_, rfl, rfl, rfl, rfl, ⟨_, rfl⟩, ⟨_, rfl⟩, ⟨_, rfl⟩⟩
    · exact ⟨_, rfl, rfl, rfl, rfl, ⟨_, rfl⟩, ⟨_, rfl⟩, ⟨_, rfl⟩⟩

/-- The retrieval stage appends exactly one record named RetrieverAgent and
never touches the answer or request text. -/
theorem retrieve_facts (env : Collaborators) (state : AgentState) :
    ∃ rec : StepRecord,
      (RetrieverAgent.retrieve env state).trace = state.trace ++ [rec] ∧
      rec.agent_name = "RetrieverAgent" ∧
      (RetrieverAgent.retrieve env state).answer = state.answer ∧
      (RetrieverAgent.retrieve env state).request_text = state.request_text := by
  unfold RetrieverAgent.retrieve
  split
  · exact ⟨_, rfl, rfl, rfl, rfl⟩
  · exact ⟨_, rfl, rfl, rfl, rfl⟩

/-- The drafting stage appends exactly one record named WriterAgent and
always leaves the answer field populated. -/
theorem write_facts (env : Collaborators) (state : AgentState) :
    ∃ (rec : StepRecord) (a : String),
      (WriterAgent.write_response env state).trace = state.trace ++ [rec] ∧
      rec.agent_name = "WriterAgent" ∧
      (WriterAgent.write_response env state).answer = some a ∧
      (WriterAgent.write_response env state).request_text = state.request_text := by
  unfold WriterAgent.write_response
  split
  · exact ⟨_, _, rfl, rfl, rfl, rfl⟩
  · exact ⟨_, _, rfl, rfl, rfl, rfl⟩

/-- With a populated answer the validation stage completes, appending
exactly one record named GuardAgent and preserving the answer. -/
theorem validate_facts (env : Collaborators) (state : AgentState) (a : String)
    (ha : state.answer = some a) :
    ∃ (s2 : AgentState) (rec : StepRecord),
      GuardAgent.validate_response env state = .ok s2 ∧
      s2.trace = state.trace ++ [rec] ∧
      rec.agent_name = "GuardAgent" ∧
      s2.answer = state.answer := by
  obtain ⟨rt, it, se, ur, so, ans, isf, vr, tr, me⟩ := state
  simp only at ha
  subst ha
  simp only [GuardAgent.validate_response]
  split
  · exact ⟨_, _, rfl, rfl, rfl, rfl⟩
  · split
    · exact ⟨_, _, rfl, rfl, rfl, rfl⟩
    · exact ⟨_, _, rfl, rfl, rfl, rfl⟩

/-- The logging stage appends exactly one record named LoggerAgent. -/
theorem log_trace_shape (env : Collaborators) (state : AgentState) :
    ∃ rec : StepRecord,
      (LoggerAgent.log_and_evaluate env state).trace = state.trace ++ [rec] ∧
      rec.agent_name = "LoggerAgent" := by
  unfold LoggerAgent.log_and_evaluate
  split
  · exact ⟨_, rfl, rfl⟩
  · exact ⟨_, rfl, rfl⟩

/-- The logging stage never touches the answer field. -/
theorem log_answer (env : Collaborators) (state : AgentState) :
    (LoggerAgent.log_and_evaluate env state).answer = state.answer := by
  unfold LoggerAgent.log_and_evaluate
  split
  · rfl
  · rfl

/-- The logging stage never touches the validation fields. -/
theorem log_validation_fields (env : Collaborators) (state : AgentState) :
    (LoggerAgent.log_and_evaluate env state).is_safe = state.is_safe ∧
    (LoggerAgent.log_and_evaluate env state).validation_reasons = state.validation_reasons := by
  unfold LoggerAgent.log_and_evaluate
  split
  · exact ⟨rfl, rfl⟩
  · exact ⟨rfl, rfl⟩

/-- With a populated answer the token estimate never raises and the
floor of 100 tokens holds in the final metrics. -/
theorem log_token_floor (env : Collaborators) (state : AgentState) (a : String)
    (ha : state.answer = some a) :
    100 ≤ (LoggerAgent.log_and_evaluate env state).metrics.token_usage := by
  obtain ⟨rt, it, se, ur, so, ans, isf, vr, tr, me⟩ := state
  simp only at ha
  subst ha
  simp only [LoggerAgent.log_and_evaluate, LoggerAgent.estimate_token_usage]
  exact le_max_right _ _

/-- A harness-passed classify node computes the classification stage. -/
theorem run_node_classify_ok (env : Collaborators) (state s : AgentState)
    (h : AgentWorkflow.run_node env .classify state = .ok s) :
    s = ClassifierAgent.classify env state := by
  unfold AgentWorkflow.run_node at h
  cases hso : env.step_outcome WorkflowNode.classify with
  | some e => rw [hso] at h; simp at h
  | none => rw [hso] at h; simp only [] at h; simpa using h.symm

/-- A harness-passed retrieve node computes the retrieval stage. -/
theorem run_node_retrieve_ok (env : Collaborators) (state s : AgentState)
    (h : AgentWorkflow.run_node env .retrieve state = .ok s) :
    s = RetrieverAgent.retrieve env state := by
  unfold AgentWorkflow.run_node at h
  cases hso : env.step_outcome WorkflowNode.retrieve with
  | some e => rw [hso] at h; simp at h
  | none => rw [hso] at h; simp only [] at h; simpa using h.symm

/-- A harness-passed write node computes the drafting stage. -/
theorem run_node_write_ok (env : Collaborators) (state s : AgentState)
    (h : AgentWorkflow.run_node env .write state = .ok s) :
    s = WriterAgent.write_response env state := by
  unfold AgentWorkflow.run_node at h
  cases hso : env.step_outcome WorkflowNode.write with
  | some e => rw [hso] at h; simp at h
  | none => rw [hso] at h; simp only [] at h; simpa using h.symm

/-- A harness-passed validate node computes the validation stage. -/
theorem run_node_validate_ok (env : Collaborators) (state s : AgentState)
    (h : AgentWorkflow.run_node env .validate state = .ok s) :
    GuardAgent.validate_response env state = .ok s := by
  unfold AgentWorkflow.run_node at h
  cases hso : env.step_outcome WorkflowNode.validate with
  | some e => rw [hso] at h; simp at h
  | none => rw [hso] at h; simpa using h

/-- A harness-passed log node computes the logging stage. -/
theorem run_node_log_ok (env : Collaborators) (state s : AgentState)
    (h : AgentWorkflow.run_node env .log state = .ok s) :
    s = LoggerAgent.log_and_evaluate env state := by
  unfold AgentWorkflow.run_node at h
  cases hso : env.step_outcome WorkflowNode.log with
  | some e => rw [hso] at h; simp at h
  | none => rw [hso] at h; simp only [] at h; simpa using h.symm

/-- A workflow run that completes is exactly the composition of the five
stage functions, with the validation stage completing normally. -/
theorem ainvoke_ok_decomp (env : Collaborators) (st0 fs : AgentState)
    (h : AgentWorkflow.ainvoke env st0 = .ok fs) :
    ∃ s4 : AgentState,
      GuardAgent.validate_response env
        (WriterAgent.write_response env
          (RetrieverAgent.retrieve env (ClassifierAgent.classify env st0))) = .ok s4 ∧
      fs = LoggerAgent.log_and_evaluate env s4 := by
  unfold AgentWorkflow.ainvoke at h
  cases h1 : AgentWorkflow.run_node env .classify st0 with
  | error e => rw [h1] at h; simp at h
  | ok s1 =>
    rw [h1] at h
    simp only [] at h
    cases h2 : AgentWorkflow.run_node env .retrieve s1 with
    | error e => rw [h2] at h; simp at h
    | ok s2 =>
      rw [h2] at h
      simp only [] at h
      cases h3 : AgentWorkflow.run_node env .write s2 with
      | error e => rw [h3] at h; simp at h
      | ok s3 =>
        rw [h3] at h
        simp only [] at h
        cases h4 : AgentWorkflow.run_node env .validate s3 with
        | error e => rw [h4] at h; simp at h
        | ok s4 =>
          rw [h4] at h
          simp only [] at h
          have e1 := run_node_classify_ok env _ _ h1
          have e2 := run_node_retrieve_ok env _ _ h2
          have e3 := run_node_write_ok env _ _ h3
          have e4 := run_node_validate_ok env _ _ h4
          have e5 := run_node_log_ok env _ _ h
          subst e1; subst e2; subst e3; subst e5
          exact ⟨s4, e4, rfl⟩

/-- A raised classification chat call takes the classifier error path. -/
theorem classify_chat_error (env : Collaborators) (state : AgentState) (e : String)
    (h : env.chat (ClassifierAgent.classify_messages state) true = .error e) :
    ClassifierAgent.classify env state = ClassifierAgent.classify_error_path state e := by
  unfold ClassifierAgent.classify
  rw [h]

/-- An unparseable classification response adopts the whole fallback triple
and still records the classification dictionary as a successful step. -/
theorem classify_parse_failure (env : Collaborators) (state : AgentState) (response : String)
    (hchat : env.chat (ClassifierAgent.classify_messages state) true = .ok response)
    (hparse : env.loads response = none) :
    ClassifierAgent.classify env state =
      { state with
          intent := some (.str "general_question"),
          sentiment := some (.str "neutral"),
          urgency := some (.str "medium"),
          trace := state.trace ++
            [{ agent_name := "ClassifierAgent", step_name := "classify_request",
               output := ClassifierAgent.fallback_classification }] } := by
  unfold ClassifierAgent.classify
  rw [hchat]
  simp only []
  rw [hparse]
  rfl

/-- A raised writer chat call sets the fixed apology answer and records an
error step. -/
theorem write_chat_error (env : Collaborators) (state : AgentState) (e : String)
    (h : env.chat (WriterAgent.write_messages state) false = .error e) :
    WriterAgent.write_response env state =
      { state with
          answer := some WriterAgent.apology_text,
          trace := state.trace ++
            [{ agent_name := "WriterAgent", step_name := "generate_response",
               output := .obj [("error", .str e)] }] } := by
  unfold WriterAgent.write_response
  rw [h]

/-- A raised validation chat call takes the conservative guard error path. -/
theorem guard_chat_error (env : Collaborators) (state : AgentState) (a e : String)
    (ha : state.answer = some a)
    (h : env.chat (GuardAgent.validate_messages state) false = .error e) :
    GuardAgent.validate_response env state = .ok (GuardAgent.validate_error_path state e) := by
  unfold GuardAgent.validate_response
  rw [h, ha]

/-- An unparseable validation response adopts the permissive fallback
dictionary. -/
theorem guard_parse_failure (env : Collaborators) (state : AgentState) (a response : String)
    (ha : state.answer = some a)
    (hchat : env.chat (GuardAgent.validate_messages state) false = .ok response)
    (hparse : env.loads response = none) :
    GuardAgent.validate_response env state =
      .ok { state with
              is_safe := some (.bool true),
              validation_reasons := some (.arr [.str "Unable to parse validation response"]),
              trace := state.trace ++
                [{ agent_name := "GuardAgent", step_name := "validate_response",
                   output := GuardAgent.permissive_fallback }] } := by
  unfold GuardAgent.validate_response
  rw [hchat]
  simp only []
  rw [ha]
  simp only []
  rw [hparse]
  rfl

/-- A validation response parsed to a JSON object adopts its is_safe and
issues values with the dictionary-get defaults. -/
theorem guard_parse_object (env : Collaborators) (state : AgentState) (a response : String)
    (fs : List (String × JsonVal))
    (ha : state.answer = some a)
    (hchat : env.chat (GuardAgent.validate_messages state) false = .ok response)
    (hparse : env.loads response = some (.obj fs)) :
    GuardAgent.validate_response env state =
      .ok { state with
              is_safe := some ((lookupKey fs "is_safe").getD (.bool false)),
              validation_reasons := some ((lookupKey fs "issues").getD (.arr [])),
              trace := state.trace ++
                [{ agent_name := "GuardAgent", step_name := "validate_response",
                   output := .obj fs }] } := by
  unfold GuardAgent.validate_response
  rw [hchat]
  simp only []
  rw [ha]
  simp only []
  rw [hparse]
  rfl

/-- Harness-passed classify node reduction. -/
theorem run_node_none_classify (env : Collaborators) (state : AgentState)
    (h : env.step_outcome .classify = none) :
    AgentWorkflow.run_node env .classify state = .ok (ClassifierAgent.classify env state) := by
  unfold AgentWorkflow.run_node
  rw [h]

/-- Harness-passed retrieve node reduction. -/
theorem run_node_none_retrieve (env : Collaborators) (state : AgentState)
    (h : env.step_outcome .retrieve = none) :
    AgentWorkflow.run_node env .retrieve state = .ok (RetrieverAgent.retrieve env state) := by
  unfold AgentWorkflow.run_node
  rw [h]

/-- Harness-passed write node reduction. -/
theorem run_node_none_write (env : Collaborators) (state : AgentState)
    (h : env.step_outcome .write = none) :
    AgentWorkflow.run_node env .write state = .ok (WriterAgent.write_response env state) := by
  unfold AgentWorkflow.run_node
  rw [h]

/-- Harness-passed validate node reduction. -/
theorem run_node_none_validate (env : Collaborators) (state : AgentState)
    (h : env.step_outcome .validate = none) :
    AgentWorkflow.run_node env .validate state = GuardAgent.validate_response env state := by
  unfold AgentWorkflow.run_node
  rw [h]

/-- Harness-passed log node reduction. -/
theorem run_node_none_log (env : Collaborators) (state : AgentState)
    (h : env.step_outcome .log = none) :
    AgentWorkflow.run_node env .log state = .ok (LoggerAgent.log_and_evaluate env state) := by
  unfold AgentWorkflow.run_node
  rw [h]

/-!
Concrete collaborator behaviours used by witnesses and counterexamples.
-/

/-- Collaborators whose harness makes every wrapped step time out. -/
def stepFailEnv : Collaborators :=
  { chat := fun _ _ => .ok "ok", loads := fun _ => none,
    kb_search := fun _ _ _ => .ok [], demo_mode := false,
    step_outcome := fun _ => some "TimeoutError", elapsed_ms := 0 }

/-- Collaborators whose completion service raises on every call. -/
def chatFailEnv : Collaborators :=
  { chat := fun _ _ => .error "Chat completion failed: connection error",
    loads := fun _ => none,
    kb_search := fun _ _ _ => .error "knowledge base unavailable",
    demo_mode := false, step_outcome := fun _ => none, elapsed_ms := 12 }

/-- Collaborators that behave normally with an empty knowledge store. -/
def plainEnv : Collaborators :=
  { chat := fun _ _ => .ok "hello", loads := fun _ => none,
    kb_search := fun _ _ _ => .ok [], demo_mode := false,
    step_outcome := fun _ => none, elapsed_ms := 3 }

/-- C1: for every input string, process_request returns a value carrying the
four fields answer, sources, trace and metrics, and every exception escaping
the compiled workflow is converted into the synthesized error result rather
than propagating to the caller. -/
theorem c1_process_request_total (env : Collaborators) (request_text : String) :
    (∃ (a : Option String) (s : List Source) (t : List StepRecord) (m : Metrics),
        AgentWorkflow.process_request env request_text =
          { answer := a, sources := s, trace := t, metrics := m }) ∧
    (∀ e, AgentWorkflow.ainvoke env (AgentWorkflow.create_initial_state request_text) = .error e →
        AgentWorkflow.process_request env request_text =
          AgentWorkflow.workflow_error_result request_text e) := by
  constructor
  · exact ⟨_, _, _, _, rfl⟩
  · intro e h
    unfold AgentWorkflow.process_request
    rw [h]

/-- Witness for C1 at a concrete collaborator behaviour whose first wrapped
step raises terminally. -/
theorem c1_witness :
    AgentWorkflow.process_request stepFailEnv "please help" =
      AgentWorkflow.workflow_error_result "please help" "TimeoutError" :=
  (c1_process_request_total stepFailEnv "please help").2 "TimeoutError" rfl

/-- C2: the trace of every process_request result is either exactly the five
stage records in pipeline order or exactly the single Workflow error record,
never any other count. -/
theorem c2_trace_shape (env : Collaborators) (request_text : String) :
    ((AgentWorkflow.process_request env request_text).trace.map StepRecord.agent_name =
        ["ClassifierAgent", "RetrieverAgent", "WriterAgent", "GuardAgent", "LoggerAgent"]) ∨
    (∃ e, (AgentWorkflow.process_request env request_text).trace =
        [{ agent_name := "Workflow", step_name := "error",
           output := .obj [("error", .str e)] }]) := by
  unfold AgentWorkflow.process_request
  cases h : AgentWorkflow.ainvoke env (AgentWorkflow.create_initial_state request_text) with
  | error e => right; exact ⟨e, rfl⟩
  | ok fs =>
    left
    obtain ⟨s4, hv, hfs⟩ := ainvoke_ok_decomp env _ fs h
    obtain ⟨r1, ht1, hn1, ha1, hrt1, _⟩ :=
      classify_facts env (AgentWorkflow.create_initial_state request_text)
    obtain ⟨r2, ht2, hn2, ha2, hrt2⟩ :=
      retrieve_facts env (ClassifierAgent.classify env (AgentWorkflow.create_initial_state request_text))
    obtain ⟨r3, a3, ht3, hn3, ha3, hrt3⟩ :=
      write_facts env (RetrieverAgent.retrieve env
        (ClassifierAgent.classify env (AgentWorkflow.create_initial_state request_text)))
    obtain ⟨s4x, r4, hok4, ht4, hn4, ha4⟩ :=
      validate_facts env (WriterAgent.write_response env
        (RetrieverAgent.retrieve env
          (ClassifierAgent.classify env (AgentWorkflow.create_initial_state request_text)))) a3 ha3
    have h44 : s4x = s4 := by
      have := hok4.symm.trans hv
      injection this
    subst h44
    obtain ⟨r5, ht5, hn5⟩ := log_trace_shape env s4x
    show fs.trace.map StepRecord.agent_name = _
    rw [hfs, ht5, ht4, ht3, ht2, ht1]
    simp [hn1, hn2, hn3, hn4, hn5, AgentWorkflow.create_initial_state]

/-- C7 counterexample: on the orchestrator terminal-failure path the
returned metrics have token_usage zero, violating the claimed floor of 100
on all paths. -/
theorem c7_counterexample :
    (AgentWorkflow.process_request stepFailEnv "hello").metrics.token_usage = 0 ∧
    ¬ (100 ≤ (AgentWorkflow.process_request stepFailEnv "hello").metrics.token_usage) := by
  decide

/-- C7 amended: the token-usage floor of 100 holds on every run in which the
compiled workflow completes; the terminal-failure path instead returns
token_usage zero. -/
theorem c7_token_floor_on_completion (env : Collaborators) (request_text : String)
    (fs : AgentState)
    (h : AgentWorkflow.ainvoke env (AgentWorkflow.create_initial_state request_text) = .ok fs) :
    100 ≤ (AgentWorkflow.process_request env request_text).metrics.token_usage := by
  obtain ⟨s4, hv, hfs⟩ := ainvoke_ok_decomp env _ fs h
  obtain ⟨r3, a3, ht3, hn3, ha3, hrt3⟩ :=
    write_facts env (RetrieverAgent.retrieve env
      (ClassifierAgent.classify env (AgentWorkflow.create_initial_state request_text)))
  obtain ⟨s4x, r4, hok4, ht4, hn4, ha4⟩ :=
    validate_facts env (WriterAgent.write_response env
      (RetrieverAgent.retrieve env
        (ClassifierAgent.classify env (AgentWorkflow.create_initial_state request_text)))) a3 ha3
  have h44 : s4x = s4 := by
    have := hok4.symm.trans hv
    injection this
  subst h44
  have hans4 : s4x.answer = some a3 := ha4.trans ha3
  unfold AgentWorkflow.process_request
  rw [h]
  show 100 ≤ fs.metrics.token_usage
  rw [hfs]
  exact log_token_floor env s4x a3 hans4

/-- Witness for C7 at a concrete collaborator behaviour under which the
workflow completes. -/
theorem c7_witness :
    100 ≤ (AgentWorkflow.process_request plainEnv "please help").metrics.token_usage :=
  c7_token_floor_on_completion plainEnv "please help"
    ((AgentWorkflow.ainvoke plainEnv
        (AgentWorkflow.create_initial_state "please help")).toOption.getD
      (AgentWorkflow.create_initial_state ""))
    rfl

set_option maxRecDepth 20000 in
/-- C3 counterexample: with a completion collaborator that raises on every
call (and no step timeout), process_request does not take the terminal
failure path: the trace has five records, not one, and token_usage is not
zero.  Each stage absorbs the collaborator exception internally. -/
theorem c3_counterexample :
    (AgentWorkflow.process_request chatFailEnv "Help me").trace.length = 5 ∧
    (AgentWorkflow.process_request chatFailEnv "Help me").metrics.token_usage ≠ 0 := by
  decide

/-- C3 amended: if the completion collaborator raises on every call and no
wrapped step times out, the pipeline still completes the normal path: the
final state has a five-record trace, the fixed apology answer from the
drafting stage, the conservative validation fallback, and the token floor;
process_request returns its projection rather than the synthesized error
result. -/
theorem c3_chat_failure_completes (env : Collaborators) (request_text : String)
    (hchat : ∀ msgs fast, ∃ e, env.chat msgs fast = Except.error e)
    (hsteps : ∀ n, env.step_outcome n = none) :
    ∃ fs : AgentState,
      AgentWorkflow.ainvoke env (AgentWorkflow.create_initial_state request_text) = .ok fs ∧
      fs.trace.length = 5 ∧
      fs.answer = some WriterAgent.apology_text ∧
      fs.is_safe = some (JsonVal.bool false) ∧
      fs.validation_reasons = some GuardAgent.system_error_reasons ∧
      100 ≤ fs.metrics.token_usage ∧
      AgentWorkflow.process_request env request_text =
        { answer := fs.answer, sources := fs.sources, trace := fs.trace, metrics := fs.metrics } := by
  obtain ⟨e3, he3⟩ := hchat
    (WriterAgent.write_messages (RetrieverAgent.retrieve env
      (ClassifierAgent.classify env (AgentWorkflow.create_initial_state request_text)))) false
  obtain ⟨e4, he4⟩ := hchat
    (GuardAgent.validate_messages (WriterAgent.write_response env
      (RetrieverAgent.retrieve env
        (ClassifierAgent.classify env (AgentWorkflow.create_initial_state request_text))))) false
  have ha3 : (WriterAgent.write_response env
      (RetrieverAgent.retrieve env
        (ClassifierAgent.classify env (AgentWorkflow.create_initial_state request_text)))).answer =
      some WriterAgent.apology_text := by
    rw [write_chat_error env _ e3 he3]
  have hs4 : GuardAgent.validate_response env
      (WriterAgent.write_response env
        (RetrieverAgent.retrieve env
          (ClassifierAgent.classify env (AgentWorkflow.create_initial_state request_text)))) =
      .ok (GuardAgent.validate_error_path
        (WriterAgent.write_response env
          (RetrieverAgent.retrieve env
            (ClassifierAgent.classify env (AgentWorkflow.create_initial_state request_text)))) e4) :=
    guard_chat_error env _ WriterAgent.apology_text e4 ha3 he4
  have hainv : AgentWorkflow.ainvoke env (AgentWorkflow.create_initial_state request_text) =
      .ok (LoggerAgent.log_and_evaluate env
        (GuardAgent.validate_error_path
          (WriterAgent.write_response env
            (RetrieverAgent.retrieve env
              (ClassifierAgent.classify env (AgentWorkflow.create_initial_state request_text)))) e4)) := by
    unfold AgentWorkflow.ainvoke
    rw [run_node_none_classify env _ (hsteps _)]
    simp only []
    rw [run_node_none_retrieve env _ (hsteps _)]
    simp only []
    rw [run_node_none_write env _ (hsteps _)]
    simp only []
    rw [run_node_none_validate env _ (hsteps _), hs4]
    simp only []
    rw [run_node_none_log env _ (hsteps _)]
  refine ⟨_, hainv, ?_, ?_, ?_, ?_, ?_, ?_⟩
  · obtain ⟨r1, ht1, _⟩ :=
      classify_facts env (AgentWorkflow.create_initial_state request_text)
    obtain ⟨r2, ht2, _⟩ :=
      retrieve_facts env (ClassifierAgent.classify env (AgentWorkflow.create_initial_state request_text))
    obtain ⟨r3, a3, ht3, _⟩ :=
      write_facts env (RetrieverAgent.retrieve env
        (ClassifierAgent.classify env (AgentWorkflow.create_initial_state request_text)))
    obtain ⟨r5, ht5, _⟩ := log_trace_shape env
      (GuardAgent.validate_error_path
        (WriterAgent.write_response env
          (RetrieverAgent.retrieve env
            (ClassifierAgent.classify env (AgentWorkflow.create_initial_state request_text)))) e4)
    rw [ht5]
    show ((WriterAgent.write_response env
      (RetrieverAgent.retrieve env
        (ClassifierAgent.classify env (AgentWorkflow.create_initial_state request_text)))).trace ++ _ ++ [r5]).length = 5
    rw [ht3, ht2, ht1]
    simp [AgentWorkflow.create_initial_state]
  · rw [log_answer]
    exact ha3
  · exact (log_validation_fields env _).1
  · exact (log_validation_fields env _).2
  · exact log_token_floor env _ WriterAgent.apology_text ha3
  · unfold AgentWorkflow.process_request
    rw [hainv]

/-- Witness for C3 amended at the concrete always-raising collaborators. -/
theorem c3_witness :
    ∃ fs : AgentState,
      AgentWorkflow.ainvoke chatFailEnv (AgentWorkflow.create_initial_state "Help me") = .ok fs ∧
      fs.trace.length = 5 ∧
      fs.answer = some WriterAgent.apology_text ∧
      fs.is_safe = some (JsonVal.bool false) ∧
      fs.validation_reasons = some GuardAgent.system_error_reasons ∧
      100 ≤ fs.metrics.token_usage ∧
      AgentWorkflow.process_request chatFailEnv "Help me" =
        { answer := fs.answer, sources := fs.sources, trace := fs.trace, metrics := fs.metrics } :=
  c3_chat_failure_completes chatFailEnv "Help me" (fun _ _ => ⟨_, rfl⟩) (fun _ => rfl)

/-- Collaborators whose completion response parses to a JSON object with an
out-of-taxonomy intent value.  The real json.loads maps the corresponding
JSON text to exactly this dictionary. -/
def bananaEnv : Collaborators :=
  { chat := fun _ _ => .ok "banana classification json",
    loads := fun _ => some (.obj [("intent", .str "banana"),
                                  ("sentiment", .str "neutral"),
                                  ("urgency", .str "medium")]),
    kb_search := fun _ _ _ => .ok [], demo_mode := false,
    step_outcome := fun _ => none, elapsed_ms := 0 }

/-- C4 counterexample: a parseable classification response with an
out-of-taxonomy value is adopted verbatim, so the intent field is not one of
the six defined intent values. -/
theorem c4_counterexample :
    (ClassifierAgent.classify bananaEnv
        (AgentWorkflow.create_initial_state "My invoice is wrong")).intent =
      some (JsonVal.str "banana") ∧
    ¬ ("banana" ∈ definedIntents) := by
  refine ⟨rfl, by decide⟩

/-- C4 amended: the classification fields are always populated after the
stage runs; they are guaranteed to equal the fallback triple - and hence to
lie in the defined 6/3/3 taxonomies - when the collaborator call raises or
when its response is not parseable as JSON, but the values of a parseable
JSON object are adopted verbatim and may lie outside the taxonomies. -/
theorem c4_classification_values (env : Collaborators) (state : AgentState) :
    ((∃ i, (ClassifierAgent.classify env state).intent = some i) ∧
     (∃ s, (ClassifierAgent.classify env state).sentiment = some s) ∧
     (∃ u, (ClassifierAgent.classify env state).urgency = some u)) ∧
    (∀ e, env.chat (ClassifierAgent.classify_messages state) true = .error e →
      (ClassifierAgent.classify env state).intent = some (.str "general_question") ∧
      (ClassifierAgent.classify env state).sentiment = some (.str "neutral") ∧
      (ClassifierAgent.classify env state).urgency = some (.str "medium")) ∧
    (∀ response, env.chat (ClassifierAgent.classify_messages state) true = .ok response →
      env.loads response = none →
      (ClassifierAgent.classify env state).intent = some (.str "general_question") ∧
      (ClassifierAgent.classify env state).sentiment = some (.str "neutral") ∧
      (ClassifierAgent.classify env state).urgency = some (.str "medium")) ∧
    ("general_question" ∈ definedIntents ∧ "neutral" ∈ definedSentiments ∧
     "medium" ∈ definedUrgencies) := by
  refine ⟨?_, ?_, ?_, by decide⟩
  · obtain ⟨r, _, _, _, _, hi, hs, hu⟩ := classify_facts env state
    exact ⟨hi, hs, hu⟩
  · intro e he
    rw [classify_chat_error env state e he]
    exact ⟨rfl, rfl, rfl⟩
  · intro response hchat hparse
    rw [classify_parse_failure env state response hchat hparse]
    exact ⟨rfl, rfl, rfl⟩

/-- Witness for C4 amended: the raising-collaborator part at the concrete
always-raising behaviour, and the unparseable-response part at the concrete
plain behaviour. -/
theorem c4_witness :
    ((ClassifierAgent.classify chatFailEnv
        (AgentWorkflow.create_initial_state "hi")).intent = some (.str "general_question")) ∧
    ((ClassifierAgent.classify plainEnv
        (AgentWorkflow.create_initial_state "hi")).urgency = some (.str "medium")) :=
  ⟨((c4_classification_values chatFailEnv (AgentWorkflow.create_initial_state "hi")).2.1
      "Chat completion failed: connection error" rfl).1,
   ((c4_classification_values plainEnv (AgentWorkflow.create_initial_state "hi")).2.2.1
      "hello" rfl rfl).2.2⟩

/-- C5: the two validation fallbacks are asymmetric - a successful chat call
with an unparseable response yields the permissive is_safe true with the
parse-failure reason, while a raised chat call yields the restrictive
is_safe false with the system-error reason. -/
theorem c5_validation_asymmetry (env : Collaborators) (state : AgentState) (a : String)
    (ha : state.answer = some a) :
    (∀ response, env.chat (GuardAgent.validate_messages state) false = .ok response →
      env.loads response = none →
      ∃ s2, GuardAgent.validate_response env state = .ok s2 ∧
        s2.is_safe = some (JsonVal.bool true) ∧
        s2.validation_reasons = some (.arr [.str "Unable to parse validation response"])) ∧
    (∀ e, env.chat (GuardAgent.validate_messages state) false = .error e →
      ∃ s2, GuardAgent.validate_response env state = .ok s2 ∧
        s2.is_safe = some (JsonVal.bool false) ∧
        s2.validation_reasons = some (.arr [.str "Validation failed due to system error"])) := by
  constructor
  · intro response hchat hparse
    exact ⟨_, guard_parse_failure env state a response ha hchat hparse, rfl, rfl⟩
  · intro e he
    exact ⟨_, guard_chat_error env state a e ha he, rfl, rfl⟩

/-- State with a drafted answer, as the validation stage receives it. -/
def answeredState : AgentState :=
  { AgentWorkflow.create_initial_state "hi" with answer := some "draft answer" }

/-- Witness for C5: both fallbacks at concrete collaborator behaviours. -/
theorem c5_witness :
    (∃ s2, GuardAgent.validate_response plainEnv answeredState = .ok s2 ∧
      s2.is_safe = some (JsonVal.bool true) ∧
      s2.validation_reasons = some (.arr [.str "Unable to parse validation response"])) ∧
    (∃ s2, GuardAgent.validate_response chatFailEnv answeredState = .ok s2 ∧
      s2.is_safe = some (JsonVal.bool false) ∧
      s2.validation_reasons = some (.arr [.str "Validation failed due to system error"])) :=
  ⟨(c5_validation_asymmetry plainEnv answeredState "draft answer" rfl).1 "hello" rfl rfl,
   (c5_validation_asymmetry chatFailEnv answeredState "draft answer" rfl).2
      "Chat completion failed: connection error" rfl⟩

/-- C6: an unparseable classification response yields exactly the fallback
triple and still appends a step whose output is the classification
dictionary, not an error object. -/
theorem c6_classifier_parse_fallback (env : Collaborators) (state : AgentState)
    (response : String)
    (hchat : env.chat (ClassifierAgent.classify_messages state) true = .ok response)
    (hparse : env.loads response = none) :
    (ClassifierAgent.classify env state).intent = some (.str "general_question") ∧
    (ClassifierAgent.classify env state).sentiment = some (.str "neutral") ∧
    (ClassifierAgent.classify env state).urgency = some (.str "medium") ∧
    (ClassifierAgent.classify env state).trace = state.trace ++
      [{ agent_name := "ClassifierAgent", step_name := "classify_request",
         output := ClassifierAgent.fallback_classification }] := by
  rw [classify_parse_failure env state response hchat hparse]
  exact ⟨rfl, rfl, rfl, rfl⟩

/-- Witness for C6 at the concrete plain behaviour, whose loads function
rejects every response. -/
theorem c6_witness :
    (ClassifierAgent.classify plainEnv
        (AgentWorkflow.create_initial_state "where is my order")).intent =
      some (.str "general_question") ∧
    (ClassifierAgent.classify plainEnv
        (AgentWorkflow.create_initial_state "where is my order")).trace =
      [{ agent_name := "ClassifierAgent", step_name := "classify_request",
         output := ClassifierAgent.fallback_classification }] := by
  have h := c6_classifier_parse_fallback plainEnv
    (AgentWorkflow.create_initial_state "where is my order") "hello" rfl rfl
  exact ⟨h.1, h.2.2.2⟩

/-- Pointwise longer source contents give a larger total content length. -/
theorem sum_content_lengths_le {l1 l2 : List Source}
    (h : List.Forall₂ (fun x y => x.content.length ≤ y.content.length) l1 l2) :
    LoggerAgent.sum_content_lengths l1 ≤ LoggerAgent.sum_content_lengths l2 := by
  induction h with
  | nil => exact le_refl 0
  | cons hxy _ ih =>
    simp only [LoggerAgent.sum_content_lengths]
    exact Nat.add_le_add hxy ih

/-- C8: the token-usage estimate is monotonically non-decreasing in the
lengths of the request text, the answer and the source contents, for states
with equal trace lengths. -/
theorem c8_estimate_monotone (s1 s2 : AgentState) (a1 a2 : String)
    (h1 : s1.answer = some a1) (h2 : s2.answer = some a2)
    (htr : s1.trace.length = s2.trace.length)
    (hreq : s1.request_text.length ≤ s2.request_text.length)
    (hans : a1.length ≤ a2.length)
    (hsrc : List.Forall₂ (fun x y => x.content.length ≤ y.content.length)
      s1.sources s2.sources)
    (t1 t2 : Nat)
    (e1 : LoggerAgent.estimate_token_usage s1 = .ok t1)
    (e2 : LoggerAgent.estimate_token_usage s2 = .ok t2) :
    t1 ≤ t2 := by
  unfold LoggerAgent.estimate_token_usage at e1 e2
  rw [h1] at e1
  rw [h2] at e2
  simp only [] at e1 e2
  injection e1 with e1x
  injection e2 with e2x
  subst e1x
  subst e2x
  refine max_le_max ?_ (le_refl 100)
  rw [htr]
  exact Nat.add_le_add
    (Nat.add_le_add
      (Nat.add_le_add (le_refl _) (Nat.div_le_div_right hreq))
      (Nat.div_le_div_right hans))
    (Nat.div_le_div_right (sum_content_lengths_le hsrc))

/-- Small state for the C8 witness. -/
def shortState : AgentState :=
  { AgentWorkflow.create_initial_state "ab" with answer := some "cd" }

/-- Larger state for the C8 witness: same trace length, longer request and
answer. -/
def longState : AgentState :=
  { AgentWorkflow.create_initial_state (String.mk (List.replicate 800 'x')) with
      answer := some (String.mk (List.replicate 400 'y')) }

set_option maxRecDepth 20000 in
/-- Witness for C8 at two concrete states whose estimates are 100 and 300. -/
theorem c8_witness : (100 : Nat) ≤ 300 :=
  c8_estimate_monotone shortState longState "cd" (String.mk (List.replicate 400 'y'))
    rfl rfl rfl (by decide) (by decide) List.Forall₂.nil 100 300 rfl rfl

/-- Step predicate: does a trace record carry an error output object. -/
def step_has_error_output (rec : StepRecord) : Bool :=
  match rec.output with
  | .obj fs => (lookupKey fs "error").isSome
  | _ => false

/-- C9 counterexample: when the knowledge-store backend fails, the
retrieval stage does not append an error record - search_similar swallows
the failure and returns an empty list, so the stage appends a normal
record with zero sources. -/
theorem c9_counterexample :
    (RetrieverAgent.retrieve chatFailEnv
        (AgentWorkflow.create_initial_state "reset password")).sources = [] ∧
    (RetrieverAgent.retrieve chatFailEnv
        (AgentWorkflow.create_initial_state "reset password")).trace.map
          StepRecord.agent_name = ["RetrieverAgent"] ∧
    (RetrieverAgent.retrieve chatFailEnv
        (AgentWorkflow.create_initial_state "reset password")).trace.map
          step_has_error_output = [false] :=
  ⟨rfl, rfl, rfl⟩

/-- C9 amended: a knowledge-store backend failure is swallowed inside
search_similar, so the stage records a normal step with zero sources and
empty sources; only a failure raised inside the stage itself (a result row
missing a required key) produces the error record with empty sources.  In
both cases the stage returns normally and the pipeline continues. -/
theorem c9_retrieval_failure_modes (env : Collaborators) (state : AgentState) :
    (∀ m, env.demo_mode = false →
      env.kb_search state.request_text 5 (7 / 10 : Rat) = .error m →
      (RetrieverAgent.retrieve env state).sources = [] ∧
      (RetrieverAgent.retrieve env state).trace = state.trace ++
        [{ agent_name := "RetrieverAgent", step_name := "retrieve_knowledge",
           output := RetrieverAgent.retrieve_output [] }]) ∧
    (∀ e, RetrieverAgent.rows_to_sources
        (KnowledgeBase.search_similar env state.request_text 5 (7 / 10 : Rat)) = .error e →
      (RetrieverAgent.retrieve env state).sources = [] ∧
      (RetrieverAgent.retrieve env state).trace = state.trace ++
        [{ agent_name := "RetrieverAgent", step_name := "retrieve_knowledge",
           output := .obj [("error", .str e)] }]) := by
  constructor
  · intro m hdemo hkb
    have hsearch : KnowledgeBase.search_similar env state.request_text 5 (7 / 10 : Rat) = [] := by
      unfold KnowledgeBase.search_similar
      rw [hdemo, hkb]
      rfl
    unfold RetrieverAgent.retrieve
    rw [hsearch]
    exact ⟨rfl, rfl⟩
  · intro e hr
    unfold RetrieverAgent.retrieve
    rw [hr]
    exact ⟨rfl, rfl⟩

/-- Collaborators whose knowledge-store backend returns one row missing all
required keys. -/
def badRowEnv : Collaborators :=
  { chat := fun _ _ => .ok "x", loads := fun _ => none,
    kb_search := fun _ _ _ =>
      .ok [{ id := none, title := none, content := none, similarity := none }],
    demo_mode := false, step_outcome := fun _ => none, elapsed_ms := 0 }

/-- Witness for C9 amended: the swallowed backend failure at the concrete
failing backend, and the raised row-mapping failure at the concrete
malformed-row backend. -/
theorem c9_witness :
    ((RetrieverAgent.retrieve chatFailEnv
        (AgentWorkflow.create_initial_state "q")).sources = [] ∧
     (RetrieverAgent.retrieve chatFailEnv
        (AgentWorkflow.create_initial_state "q")).trace =
       (AgentWorkflow.create_initial_state "q").trace ++
         [{ agent_name := "RetrieverAgent", step_name := "retrieve_knowledge",
            output := RetrieverAgent.retrieve_output [] }]) ∧
    ((RetrieverAgent.retrieve badRowEnv
        (AgentWorkflow.create_initial_state "q")).sources = [] ∧
     (RetrieverAgent.retrieve badRowEnv
        (AgentWorkflow.create_initial_state "q")).trace =
       (AgentWorkflow.create_initial_state "q").trace ++
         [{ agent_name := "RetrieverAgent", step_name := "retrieve_knowledge",
            output := .obj [("error", .str keyErrorMissingField)] }]) :=
  ⟨(c9_retrieval_failure_modes chatFailEnv (AgentWorkflow.create_initial_state "q")).1
      "knowledge base unavailable" rfl rfl,
   (c9_retrieval_failure_modes badRowEnv (AgentWorkflow.create_initial_state "q")).2
      keyErrorMissingField rfl⟩

/-- C10: on the parse-success path a missing is_safe key defaults to the
restrictive false, and a missing issues key defaults to the empty issue
list. -/
theorem c10_guard_defaults (env : Collaborators) (state : AgentState)
    (a response : String) (fs : List (String × JsonVal))
    (ha : state.answer = some a)
    (hchat : env.chat (GuardAgent.validate_messages state) false = .ok response)
    (hparse : env.loads response = some (.obj fs)) :
    (lookupKey fs "is_safe" = none →
      ∃ s2, GuardAgent.validate_response env state = .ok s2 ∧
        s2.is_safe = some (JsonVal.bool false)) ∧
    (lookupKey fs "issues" = none →
      ∃ s2, GuardAgent.validate_response env state = .ok s2 ∧
        s2.validation_reasons = some (JsonVal.arr [])) := by
  have hval := guard_parse_object env state a response fs ha hchat hparse
  constructor
  · intro hmiss
    exact ⟨_, hval, by simp [hmiss]⟩
  · intro hmiss
    exact ⟨_, hval, by simp [hmiss]⟩

/-- Collaborators whose validation response parses to an empty JSON
object. -/
def emptyObjEnv : Collaborators :=
  { chat := fun _ _ => .ok "empty object", loads := fun _ => some (.obj []),
    kb_search := fun _ _ _ => .ok [], demo_mode := false,
    step_outcome := fun _ => none, elapsed_ms := 0 }

/-- Witness for C10 at the concrete empty-object validation response. -/
theorem c10_witness :
    (∃ s2, GuardAgent.validate_response emptyObjEnv answeredState = .ok s2 ∧
      s2.is_safe = some (JsonVal.bool false)) ∧
    (∃ s2, GuardAgent.validate_response emptyObjEnv answeredState = .ok s2 ∧
      s2.validation_reasons = some (JsonVal.arr [])) :=
  ⟨(c10_guard_defaults emptyObjEnv answeredState "draft answer" "empty object" []
      rfl rfl rfl).1 rfl,
   (c10_guard_defaults emptyObjEnv answeredState "draft answer" "empty object" []
      rfl rfl rfl).2 rfl⟩
